import Mathlib

/-!
Shallow embedding of the warehouse monitoring service
(`app/services/warehouse_service.py`, `app/models/schemas.py`,
`app/models/database.py`, `app/api/routes.py`, `app/main.py`,
`app/services/kafka_consumer.py`).

Modelling conventions:
* Python `datetime` values are modelled as `Int` (seconds since an epoch);
  `(a - b).total_seconds()` becomes integer subtraction.
* Python `int` quantities are `Int` (arbitrary precision, as in Python).
* The two SQL tables (`warehouse_states`, `movements`) become lists of rows;
  `fetch_one` of a `SELECT ... WHERE` becomes `List.find?` of the predicate,
  `UPDATE ... WHERE` maps over all rows matching the `WHERE` clause, and
  `INSERT` appends (raising, i.e. returning `Except.error`, on a primary-key
  collision, as the database driver would).
* A Python exception raised by a store operation is `Except.error`;
  `process_message`'s `try/except` catches it and returns `False`, keeping
  whatever writes had already been executed (there is no transaction).
-/

/-- Event kind of an inbound message: `Literal["arrival", "departure"]` in
`app/models/schemas.py` (pydantic rejects any other value of the field). -/
inductive EventKind where
  | arrival
  | departure
deriving DecidableEq, Repr

/-- Payload of an inbound Kafka message, `MovementData` in
`app/models/schemas.py`. Note that `quantity : int` carries no positivity
constraint in the source. -/
structure MovementData where
  movement_id : String
  warehouse_id : String
  timestamp : Int
  event : EventKind
  product_id : String
  quantity : Int
deriving DecidableEq, Repr

/-- Envelope of an inbound Kafka message, `KafkaMessage` in
`app/models/schemas.py`. -/
structure KafkaMessage where
  id : String
  source : String
  specversion : String
  type : String
  datacontenttype : String
  dataschema : String
  time : Int
  subject : String
  destination : String
  data : MovementData
deriving DecidableEq, Repr

/-- Response model `WarehouseState` in `app/models/schemas.py` (the identical
pydantic model in `app/main.py` is represented by the same structure). -/
structure WarehouseState where
  warehouse_id : String
  product_id : String
  quantity : Int
deriving DecidableEq, Repr

/-- Row of the `warehouse_states` table in `app/models/database.py`:
primary key `id` (the string `warehouse_id ++ ":" ++ product_id`), plus the
indexed columns and the quantity. -/
structure WarehouseRow where
  id : String
  warehouse_id : String
  product_id : String
  quantity : Int
deriving DecidableEq, Repr

/-- Row of the `movements` table in `app/models/database.py`: primary key
`movement_id`; the side-specific and derived columns are nullable. -/
structure MovementRow where
  movement_id : String
  source_warehouse : Option String
  destination_warehouse : Option String
  product_id : String
  departure_time : Option Int
  arrival_time : Option Int
  time_difference_seconds : Option Int
  departure_quantity : Option Int
  arrival_quantity : Option Int
  quantity_difference : Option Int
deriving DecidableEq, Repr

/-- Response model `MovementInfo` in `app/models/schemas.py`. -/
structure MovementInfo where
  movement_id : String
  source_warehouse : Option String
  destination_warehouse : Option String
  product_id : String
  departure_time : Option Int
  arrival_time : Option Int
  time_difference_seconds : Option Int
  departure_quantity : Option Int
  arrival_quantity : Option Int
  quantity_difference : Option Int
deriving DecidableEq, Repr

/-- The persistent database: the two tables declared in
`app/models/database.py`. -/
structure Store where
  warehouse_states : List WarehouseRow
  movements : List MovementRow
deriving DecidableEq, Repr

/-- The freshly created database (both tables empty). -/
def emptyStore : Store := ⟨[], []⟩

/-- SELECT from `warehouse_states` WHERE `warehouse_id` and `product_id`
match, `fetch_one` (first matching row), as issued by `get_warehouse_state`
and `update_warehouse_state`. -/
def fetchWarehouseRow (l : List WarehouseRow) (warehouse_id product_id : String) :
    Option WarehouseRow :=
  l.find? (fun r => r.warehouse_id == warehouse_id && r.product_id == product_id)

/-- The function `get_warehouse_state` of `app/services/warehouse_service.py`:
look the pair up in the `warehouse_states` table, returning a quantity-0 view
when no row matches (no row is created). -/
def get_warehouse_state (s : Store) (warehouse_id product_id : String) :
    WarehouseState :=
  match fetchWarehouseRow s.warehouse_states warehouse_id product_id with
  | none => ⟨warehouse_id, product_id, 0⟩
  | some r => ⟨r.warehouse_id, r.product_id, r.quantity⟩

/-- Table-level core of `update_warehouse_state`: select by
`(warehouse_id, product_id)`; if a row exists, UPDATE (by primary key
`id = warehouse_id ++ ":" ++ product_id`) its quantity, else INSERT a new row.
The INSERT raises (Except.error) when the primary key already exists. -/
def wsUpdateCore (l : List WarehouseRow) (warehouse_id product_id : String)
    (quantity : Int) : Except String (List WarehouseRow) :=
  let state_id := warehouse_id ++ ":" ++ product_id
  match fetchWarehouseRow l warehouse_id product_id with
  | some _ =>
      Except.ok (l.map (fun r =>
        if r.id == state_id then { r with quantity := quantity } else r))
  | none =>
      if l.any (fun r => r.id == state_id) then
        Except.error "UNIQUE constraint failed: warehouse_states.id"
      else
        Except.ok (l ++ [⟨state_id, warehouse_id, product_id, quantity⟩])

/-- The function `update_warehouse_state` of
`app/services/warehouse_service.py`, acting on the whole store (it touches
only the `warehouse_states` table). -/
def update_warehouse_state (s : Store) (warehouse_id product_id : String)
    (quantity : Int) : Except String Store :=
  match wsUpdateCore s.warehouse_states warehouse_id product_id quantity with
  | Except.error e => Except.error e
  | Except.ok l => Except.ok { s with warehouse_states := l }

/-- SELECT from `movements` WHERE `movement_id` matches, `fetch_one`. -/
def findMovementRow (l : List MovementRow) (movement_id : String) :
    Option MovementRow :=
  l.find? (fun r => r.movement_id == movement_id)

/-- Table-level core of `update_movement_departure`: if a row for
`movement_id` exists, UPDATE it with the departure-side fields, additionally
recomputing `time_difference_seconds` and `quantity_difference` when
`arrival_time` is set (Python's truthiness test `if movement["arrival_time"]`;
a set `arrival_time` with a NULL `arrival_quantity` raises a `TypeError`
before any write, modelled as `Except.error`). Otherwise INSERT a fresh
departure-only row. -/
def movDepartureCore (l : List MovementRow) (movement_id warehouse_id product_id : String)
    (timestamp quantity : Int) : Except String (List MovementRow) :=
  match findMovementRow l movement_id with
  | some movement =>
      match movement.arrival_time with
      | none =>
          Except.ok (l.map (fun r =>
            if r.movement_id == movement_id then
              { r with source_warehouse := some warehouse_id,
                       departure_time := some timestamp,
                       departure_quantity := some quantity }
            else r))
      | some arrT =>
          match movement.arrival_quantity with
          | none => Except.error "TypeError: unsupported operand"
          | some arrQ =>
              Except.ok (l.map (fun r =>
                if r.movement_id == movement_id then
                  { r with source_warehouse := some warehouse_id,
                           departure_time := some timestamp,
                           departure_quantity := some quantity,
                           time_difference_seconds := some (arrT - timestamp),
                           quantity_difference := some (arrQ - quantity) }
                else r))
  | none =>
      Except.ok (l ++ [{ movement_id := movement_id,
                         source_warehouse := some warehouse_id,
                         destination_warehouse := none,
                         product_id := product_id,
                         departure_time := some timestamp,
                         arrival_time := none,
                         time_difference_seconds := none,
                         departure_quantity := some quantity,
                         arrival_quantity := none,
                         quantity_difference := none }])

/-- The function `update_movement_departure` of
`app/services/warehouse_service.py` (touches only the `movements` table). -/
def update_movement_departure (s : Store) (movement_id warehouse_id product_id : String)
    (timestamp quantity : Int) : Except String Store :=
  match movDepartureCore s.movements movement_id warehouse_id product_id timestamp quantity with
  | Except.error e => Except.error e
  | Except.ok l => Except.ok { s with movements := l }

/-- Table-level core of `update_movement_arrival`, symmetric to
`movDepartureCore`: recomputes the derived fields when `departure_time` is
set (`time_diff = timestamp - departure_time`,
`quantity_diff = quantity - departure_quantity`). -/
def movArrivalCore (l : List MovementRow) (movement_id warehouse_id product_id : String)
    (timestamp quantity : Int) : Except String (List MovementRow) :=
  match findMovementRow l movement_id with
  | some movement =>
      match movement.departure_time with
      | none =>
          Except.ok (l.map (fun r =>
            if r.movement_id == movement_id then
              { r with destination_warehouse := some warehouse_id,
                       arrival_time := some timestamp,
                       arrival_quantity := some quantity }
            else r))
      | some depT =>
          match movement.departure_quantity with
          | none => Except.error "TypeError: unsupported operand"
          | some depQ =>
              Except.ok (l.map (fun r =>
                if r.movement_id == movement_id then
                  { r with destination_warehouse := some warehouse_id,
                           arrival_time := some timestamp,
                           arrival_quantity := some quantity,
                           time_difference_seconds := some (timestamp - depT),
                           quantity_difference := some (quantity - depQ) }
                else r))
  | none =>
      Except.ok (l ++ [{ movement_id := movement_id,
                         source_warehouse := none,
                         destination_warehouse := some warehouse_id,
                         product_id := product_id,
                         departure_time := none,
                         arrival_time := some timestamp,
                         time_difference_seconds := none,
                         departure_quantity := none,
                         arrival_quantity := some quantity,
                         quantity_difference := none }])

/-- The function `update_movement_arrival` of
`app/services/warehouse_service.py`. -/
def update_movement_arrival (s : Store) (movement_id warehouse_id product_id : String)
    (timestamp quantity : Int) : Except String Store :=
  match movArrivalCore s.movements movement_id warehouse_id product_id timestamp quantity with
  | Except.error e => Except.error e
  | Except.ok l => Except.ok { s with movements := l }

/-- The function `process_message` of `app/services/warehouse_service.py`.
Returns the `True`/`False` result together with the store after the writes
that were executed: the surrounding `try/except` converts any raised store
error into a `False` return, and writes performed before the raise persist
(there is no transaction). A departure with insufficient stock returns
`False` before any write. -/
def process_message (message : KafkaMessage) (s : Store) : Bool × Store :=
  let movement_data := message.data
  let warehouse_id := movement_data.warehouse_id
  let product_id := movement_data.product_id
  let quantity := movement_data.quantity
  let movement_id := movement_data.movement_id
  let timestamp := movement_data.timestamp
  let current_state := get_warehouse_state s warehouse_id product_id
  match movement_data.event with
  | EventKind.departure =>
      if current_state.quantity < quantity then (false, s)
      else
        match update_warehouse_state s warehouse_id product_id
            (current_state.quantity - quantity) with
        | Except.error _ => (false, s)
        | Except.ok s1 =>
            match update_movement_departure s1 movement_id warehouse_id product_id
                timestamp quantity with
            | Except.error _ => (false, s1)
            | Except.ok s2 => (true, s2)
  | EventKind.arrival =>
      match update_warehouse_state s warehouse_id product_id
          (current_state.quantity + quantity) with
      | Except.error _ => (false, s)
      | Except.ok s1 =>
          match update_movement_arrival s1 movement_id warehouse_id product_id
              timestamp quantity with
          | Except.error _ => (false, s1)
          | Except.ok s2 => (true, s2)

/-- The function `get_movement_info` of `app/services/warehouse_service.py`:
a pure SELECT returning `None` for an unknown `movement_id`. -/
def get_movement_info (s : Store) (movement_id : String) : Option MovementInfo :=
  match findMovementRow s.movements movement_id with
  | none => none
  | some r =>
      some ⟨r.movement_id, r.source_warehouse, r.destination_warehouse,
            r.product_id, r.departure_time, r.arrival_time,
            r.time_difference_seconds, r.departure_quantity,
            r.arrival_quantity, r.quantity_difference⟩

/-- The endpoint `read_warehouse_state` of `app/api/routes.py`: delegates to
`get_warehouse_state` (database-backed). -/
def routes_read_warehouse_state (s : Store) (warehouse_id product_id : String) :
    WarehouseState :=
  get_warehouse_state s warehouse_id product_id

/-- The endpoint `read_movement` of `app/api/routes.py`: delegates to
`get_movement_info`, raising HTTP 404 (modelled as `Except.error 404`) for an
unknown movement. -/
def routes_read_movement (s : Store) (movement_id : String) :
    Except Nat MovementInfo :=
  match get_movement_info s movement_id with
  | none => Except.error 404
  | some m => Except.ok m

/-- The pydantic model `MovementInfo` declared in `app/main.py` (its
`departure_time` and `arrival_time` are plain strings there, and
`time_difference_seconds` a float, kept here as `Int`). -/
structure MainMovementInfo where
  movement_id : String
  source_warehouse : Option String
  destination_warehouse : Option String
  product_id : String
  departure_time : Option String
  arrival_time : Option String
  time_difference_seconds : Option Int
  departure_quantity : Option Int
  arrival_quantity : Option Int
  quantity_difference : Option Int
deriving DecidableEq, Repr

/-- In-process state of `app/main.py`: the module-level dictionaries
`warehouses` and `movements`, plus the memo tables of the two
`functools.lru_cache(maxsize=100)` decorated getters (most recently used
first). -/
structure MainState where
  warehouses : List (String × WarehouseState)
  movementsMem : List (String × MainMovementInfo)
  warehouseCache : List (String × Option WarehouseState)
  movementCache : List (String × Option MainMovementInfo)
deriving DecidableEq, Repr

/-- The state of `app/main.py` before the `startup` handler runs: empty
dictionaries, cold caches. -/
def emptyMainState : MainState := ⟨[], [], [], []⟩

/-- Lookup in an lru_cache memo table (or a plain dict, `dict.get`). -/
def lruGet {β : Type} (cache : List (String × β)) (k : String) : Option β :=
  (cache.find? (fun e => e.1 == k)).map Prod.snd

/-- Record a call result in an lru_cache memo table: the entry becomes most
recently used and at most 100 entries are retained. -/
def lruPut {β : Type} (cache : List (String × β)) (k : String) (v : β) :
    List (String × β) :=
  ((k, v) :: cache.filter (fun e => !(e.1 == k))).take 100

/-- The function `get_warehouse_state_cached` of `app/main.py`: an
`lru_cache`-memoized read of the module-level `warehouses` dictionary.
Returns the value together with the updated process state (the memo table
mutates on every call). -/
def get_warehouse_state_cached (st : MainState) (warehouse_key : String) :
    Option WarehouseState × MainState :=
  match lruGet st.warehouseCache warehouse_key with
  | some v => (v, { st with warehouseCache := lruPut st.warehouseCache warehouse_key v })
  | none =>
      let v := lruGet st.warehouses warehouse_key
      (v, { st with warehouseCache := lruPut st.warehouseCache warehouse_key v })

/-- The function `get_movement_cached` of `app/main.py`. -/
def get_movement_cached (st : MainState) (movement_id : String) :
    Option MainMovementInfo × MainState :=
  match lruGet st.movementCache movement_id with
  | some v => (v, { st with movementCache := lruPut st.movementCache movement_id v })
  | none =>
      let v := lruGet st.movementsMem movement_id
      (v, { st with movementCache := lruPut st.movementCache movement_id v })

/-- The endpoint `read_warehouse_state` of `app/main.py` (the application
actually mounted: `main.py` never includes the router of
`app/api/routes.py`): a cached read of the in-memory `warehouses`
dictionary, defaulting to a quantity-0 view. -/
def main_read_warehouse_state (st : MainState) (warehouse_id product_id : String) :
    WarehouseState × MainState :=
  let warehouse_key := warehouse_id ++ ":" ++ product_id
  match get_warehouse_state_cached st warehouse_key with
  | (none, st1) => (⟨warehouse_id, product_id, 0⟩, st1)
  | (some state, st1) => (state, st1)

/-- The endpoint `read_movement` of `app/main.py`: cached read of the
in-memory `movements` dictionary, then a direct dictionary read, then
HTTP 404 (`Except.error 404`). -/
def main_read_movement (st : MainState) (movement_id : String) :
    Except Nat MainMovementInfo × MainState :=
  match get_movement_cached st movement_id with
  | (some m, st1) => (Except.ok m, st1)
  | (none, st1) =>
      match lruGet st1.movementsMem movement_id with
      | none => (Except.error 404, st1)
      | some m => (Except.ok m, st1)

/-- The function `invalidate_cache` of `app/main.py`: clears both memo
tables. No function in the repository ever calls it. -/
def invalidate_cache (st : MainState) : MainState :=
  { st with warehouseCache := [], movementCache := [] }

/-- One apply step of the whole system, pairing the database with the
in-process state of `app/main.py`: `process_message` reads and writes only
the database; no code path reachable from it calls `invalidate_cache` (the
function has no callers in the repository), nor touches the dictionaries of
`app/main.py`, so that state passes through unchanged. -/
def system_apply (message : KafkaMessage) (sys : Store × MainState) :
    Bool × (Store × MainState) :=
  let (r, db) := process_message message sys.1
  (r, (db, sys.2))

/-- Consumer-side log action taken for one message in
`KafkaConsumerService._consume` of `app/services/kafka_consumer.py`:
`logger.info` on a `True` result, `logger.warning` on a `False` result; in
both cases the `for` loop simply proceeds to the next message. -/
inductive ConsumerLog where
  | processedOk
  | processedFailed
deriving DecidableEq, Repr

/-- How `_consume` reacts to the result of `process_message` (source lines
54-58): log and continue; there is no pause, backoff or retry branch. -/
def consume_step (result : Bool) : ConsumerLog :=
  if result then ConsumerLog.processedOk else ConsumerLog.processedFailed

/-- Modelled from the spec and the `except` clause of `process_message`
(source lines 45-47): when the persistence layer is unavailable, the very
first store operation (`database.fetch_one` inside `get_warehouse_state`)
raises, control jumps to the `except` handler before any write, and
`process_message` returns `False` with the store untouched. -/
def process_message_store_down (_message : KafkaMessage) (s : Store) :
    Bool × Store :=
  (false, s)

/-- Dispatch of one message with an explicit availability flag for the
persistence layer: `True` runs `process_message` normally, `False` runs it
with the store unavailable. -/
def process_message_avail (storeUp : Bool) (message : KafkaMessage) (s : Store) :
    Bool × Store :=
  if storeUp then process_message message s
  else process_message_store_down message s

/-- The message loop of `KafkaConsumerService._consume`: each message is
processed in order (with the store availability given per message) and the
loop continues regardless of the per-message result. -/
def consume_run : List (Bool × KafkaMessage) → Store → List ConsumerLog × Store
  | [], s => ([], s)
  | m :: rest, s =>
      let (r, s1) := process_message_avail m.1 m.2 s
      let (ls, s2) := consume_run rest s1
      (consume_step r :: ls, s2)

/-- Folding a list of messages through `process_message`, keeping only the
store (the event stream as consumed from Kafka, stores always up). -/
def applyAll (msgs : List KafkaMessage) (s : Store) : Store :=
  msgs.foldl (fun st m => (process_message m st).2) s

/-- Non-negativity of every stored ledger quantity. -/
def ledgerNonneg (s : Store) : Prop :=
  ∀ r ∈ s.warehouse_states, 0 ≤ r.quantity

/-! ### List lemmas shared by the proofs -/

/-- Mapping a predicate-preserving function commutes with `find?`. -/
theorem find?_map_pres {α : Type} (p : α → Bool) (f : α → α)
    (hf : ∀ a, p (f a) = p a) (l : List α) :
    (l.map f).find? p = Option.map f (l.find? p) := by
  induction l with
  | nil => rfl
  | cons a t ih =>
      simp only [List.map_cons, List.find?_cons, hf a]
      cases hpa : p a
      · simpa [hpa] using ih
      · simp [hpa]

/-- Appending after a failed `find?` searches the suffix. -/
theorem find?_append_of_none {α : Type} (p : α → Bool) (l₁ l₂ : List α)
    (h : l₁.find? p = none) : (l₁ ++ l₂).find? p = l₂.find? p := by
  induction l₁ with
  | nil => rfl
  | cons a t ih =>
      simp only [List.find?_cons] at h ⊢
      cases hpa : p a
      · simp only [hpa] at h
        simpa [hpa] using ih h
      · simp [hpa] at h

/-- A map that fixes every member is the identity on the list. -/
theorem map_eq_self_of_mem {α : Type} (l : List α) (f : α → α)
    (h : ∀ a ∈ l, f a = a) : l.map f = l := by
  induction l with
  | nil => rfl
  | cons a t ih =>
      simp only [List.map_cons, h a (List.mem_cons_self a t)]
      rw [ih (fun b hb => h b (List.mem_cons_of_mem a hb))]

/-! ### Frame lemmas for the store operations -/

/-- A ledger write leaves the `movements` table unchanged. -/
theorem update_warehouse_state_movements (s : Store) (w p : String) (q : Int)
    (s' : Store) (h : update_warehouse_state s w p q = Except.ok s') :
    s'.movements = s.movements := by
  unfold update_warehouse_state at h
  cases hc : wsUpdateCore s.warehouse_states w p q with
  | error e => rw [hc] at h; cases h
  | ok l => rw [hc] at h; injection h with h; rw [← h]

/-- A ledger write replaces `warehouse_states` by the core's output. -/
theorem update_warehouse_state_ok (s : Store) (w p : String) (q : Int)
    (s' : Store) (h : update_warehouse_state s w p q = Except.ok s') :
    wsUpdateCore s.warehouse_states w p q = Except.ok s'.warehouse_states := by
  unfold update_warehouse_state at h
  cases hc : wsUpdateCore s.warehouse_states w p q with
  | error e => rw [hc] at h; cases h
  | ok l => rw [hc] at h; injection h with h; rw [← h]

/-- A departure-side movement write leaves the ledger unchanged. -/
theorem update_movement_departure_ws (s : Store) (mid w p : String) (t q : Int)
    (s' : Store) (h : update_movement_departure s mid w p t q = Except.ok s') :
    s'.warehouse_states = s.warehouse_states := by
  unfold update_movement_departure at h
  cases hc : movDepartureCore s.movements mid w p t q with
  | error e => rw [hc] at h; cases h
  | ok l => rw [hc] at h; injection h with h; rw [← h]

/-- A departure-side movement write replaces `movements` by the core's
output. -/
theorem update_movement_departure_ok (s : Store) (mid w p : String) (t q : Int)
    (s' : Store) (h : update_movement_departure s mid w p t q = Except.ok s') :
    movDepartureCore s.movements mid w p t q = Except.ok s'.movements := by
  unfold update_movement_departure at h
  cases hc : movDepartureCore s.movements mid w p t q with
  | error e => rw [hc] at h; cases h
  | ok l => rw [hc] at h; injection h with h; rw [← h]

/-- An arrival-side movement write leaves the ledger unchanged. -/
theorem update_movement_arrival_ws (s : Store) (mid w p : String) (t q : Int)
    (s' : Store) (h : update_movement_arrival s mid w p t q = Except.ok s') :
    s'.warehouse_states = s.warehouse_states := by
  unfold update_movement_arrival at h
  cases hc : movArrivalCore s.movements mid w p t q with
  | error e => rw [hc] at h; cases h
  | ok l => rw [hc] at h; injection h with h; rw [← h]

/-- An arrival-side movement write replaces `movements` by the core's
output. -/
theorem update_movement_arrival_ok (s : Store) (mid w p : String) (t q : Int)
    (s' : Store) (h : update_movement_arrival s mid w p t q = Except.ok s') :
    movArrivalCore s.movements mid w p t q = Except.ok s'.movements := by
  unfold update_movement_arrival at h
  cases hc : movArrivalCore s.movements mid w p t q with
  | error e => rw [hc] at h; cases h
  | ok l => rw [hc] at h; injection h with h; rw [← h]
/-! ### Non-negativity of the ledger -/

/-- A ledger view read from a non-negative store is non-negative (a missing
row reads as quantity 0). -/
theorem get_warehouse_state_nonneg (s : Store) (w p : String)
    (hs : ledgerNonneg s) : 0 ≤ (get_warehouse_state s w p).quantity := by
  cases hf : fetchWarehouseRow s.warehouse_states w p with
  | none =>
      simp only [get_warehouse_state, hf]
      exact le_refl 0
  | some r =>
      simp only [get_warehouse_state, hf]
      exact hs r (List.mem_of_find?_eq_some hf)

/-- Writing a non-negative quantity through `wsUpdateCore` preserves
non-negativity of every row. -/
theorem wsUpdateCore_nonneg (l : List WarehouseRow) (w p : String) (q : Int)
    (hl : ∀ r ∈ l, 0 ≤ r.quantity) (hq : 0 ≤ q) (l' : List WarehouseRow)
    (h : wsUpdateCore l w p q = Except.ok l') : ∀ r ∈ l', 0 ≤ r.quantity := by
  cases hf : fetchWarehouseRow l w p with
  | some row =>
      simp only [wsUpdateCore, hf] at h
      injection h with h
      intro r hr
      rw [← h] at hr
      rcases List.mem_map.mp hr with ⟨a, ha, rfl⟩
      by_cases hid : (a.id == w ++ ":" ++ p) = true
      · rw [if_pos hid]
        exact hq
      · rw [if_neg hid]
        exact hl a ha
  | none =>
      simp only [wsUpdateCore, hf] at h
      split at h
      · cases h
      · injection h with h
        intro r hr
        rw [← h] at hr
        rcases List.mem_append.mp hr with hra | hrb
        · exact hl r hra
        · rcases List.mem_singleton.mp hrb with rfl
          exact hq

/-- Helper shared by the C1 and C3 statements: a departure finding
insufficient stock returns `False` and leaves the store untouched
(`process_message` returns before issuing any write). -/
theorem process_message_reject (m : KafkaMessage) (s : Store)
    (hdep : m.data.event = EventKind.departure)
    (hlow : (get_warehouse_state s m.data.warehouse_id m.data.product_id).quantity
      < m.data.quantity) :
    process_message m s = (false, s) := by
  simp only [process_message, hdep]
  rw [if_pos hlow]

/-- One `process_message` step preserves ledger non-negativity, provided an
arrival event carries a non-negative quantity (departures need no such
hypothesis: the insufficient-stock guard, or subtracting a negative
quantity, keeps the result non-negative). -/
theorem process_message_nonneg (m : KafkaMessage) (s : Store)
    (hs : ledgerNonneg s)
    (hm : m.data.event = EventKind.arrival → 0 ≤ m.data.quantity) :
    ledgerNonneg (process_message m s).2 := by
  have hcur := get_warehouse_state_nonneg s m.data.warehouse_id m.data.product_id hs
  cases hev : m.data.event with
  | departure =>
      by_cases hlt : (get_warehouse_state s m.data.warehouse_id m.data.product_id).quantity
          < m.data.quantity
      · simp only [process_message, hev, if_pos hlt]
        exact hs
      · cases hu : update_warehouse_state s m.data.warehouse_id m.data.product_id
            ((get_warehouse_state s m.data.warehouse_id m.data.product_id).quantity
              - m.data.quantity) with
        | error e =>
            simp only [process_message, hev, if_neg hlt, hu]
            exact hs
        | ok s1 =>
            have hs1 : ledgerNonneg s1 := fun r hr =>
              wsUpdateCore_nonneg s.warehouse_states m.data.warehouse_id
                m.data.product_id _ hs (by omega) s1.warehouse_states
                (update_warehouse_state_ok s _ _ _ s1 hu) r hr
            cases hd : update_movement_departure s1 m.data.movement_id
                m.data.warehouse_id m.data.product_id m.data.timestamp m.data.quantity with
            | error e =>
                simp only [process_message, hev, if_neg hlt, hu, hd]
                exact hs1
            | ok s2 =>
                simp only [process_message, hev, if_neg hlt, hu, hd]
                show ledgerNonneg s2
                intro r hr
                rw [update_movement_departure_ws s1 _ _ _ _ _ s2 hd] at hr
                exact hs1 r hr
  | arrival =>
      have hq : 0 ≤ m.data.quantity := hm hev
      cases hu : update_warehouse_state s m.data.warehouse_id m.data.product_id
          ((get_warehouse_state s m.data.warehouse_id m.data.product_id).quantity
            + m.data.quantity) with
      | error e =>
          simp only [process_message, hev, hu]
          exact hs
      | ok s1 =>
          have hs1 : ledgerNonneg s1 := fun r hr =>
            wsUpdateCore_nonneg s.warehouse_states m.data.warehouse_id
              m.data.product_id _ hs (by omega) s1.warehouse_states
              (update_warehouse_state_ok s _ _ _ s1 hu) r hr
          cases ha : update_movement_arrival s1 m.data.movement_id
              m.data.warehouse_id m.data.product_id m.data.timestamp m.data.quantity with
          | error e =>
              simp only [process_message, hev, hu, ha]
              exact hs1
          | ok s2 =>
              simp only [process_message, hev, hu, ha]
              show ledgerNonneg s2
              intro r hr
              rw [update_movement_arrival_ws s1 _ _ _ _ _ s2 ha] at hr
              exact hs1 r hr

/-- Folding a message list through `process_message` preserves ledger
non-negativity when every arrival in the list carries a non-negative
quantity. -/
theorem applyAll_nonneg (msgs : List KafkaMessage) (s : Store)
    (hs : ledgerNonneg s)
    (hm : ∀ m ∈ msgs, m.data.event = EventKind.arrival → 0 ≤ m.data.quantity) :
    ledgerNonneg (applyAll msgs s) := by
  induction msgs generalizing s with
  | nil => exact hs
  | cons m rest ih =>
      have hstep := process_message_nonneg m s hs (hm m (List.mem_cons_self m rest))
      exact ih (process_message m s).2 hstep
        (fun m' hm' => hm m' (List.mem_cons_of_mem m hm'))

/-! ### Fixtures for the concrete witnesses and counterexamples -/

/-- Concrete message-envelope builder used by the witnesses and
counterexamples below (the envelope fields other than `data` are ignored by
`process_message`). -/
def mkMsg (mid wid : String) (t : Int) (ev : EventKind) (pid : String)
    (q : Int) : KafkaMessage :=
  ⟨"evt-1", "WMS", "1.0", "ru.retail.warehouses.movement", "application/json",
   "schema-1", 0, "subject", "dest", ⟨mid, wid, t, ev, pid, q⟩⟩

/-- Witness fixture for C1: an ordinary arrival. -/
def c1wA : KafkaMessage := mkMsg "MOV-A" "WH-1" 10 EventKind.arrival "PROD-1" 100

/-- Witness fixture for C1: an ordinary in-stock departure. -/
def c1wD : KafkaMessage := mkMsg "MOV-A" "WH-1" 20 EventKind.departure "PROD-1" 30

/-- Witness fixture for C1: a departure exceeding the stored quantity. -/
def c1wR : KafkaMessage := mkMsg "MOV-B" "WH-9" 30 EventKind.departure "PROD-9" 50

/-- Witness fixture for C1: a store holding 30 units of PROD-9 at WH-9. -/
def c1wS : Store := ⟨[⟨"WH-9:PROD-9", "WH-9", "PROD-9", 30⟩], []⟩

/-- Counterexample fixture for C1: an arrival with a negative quantity,
accepted by the event schema (`quantity : int` is unconstrained). -/
def c1Neg : KafkaMessage := mkMsg "MOV-N" "W1" 5 EventKind.arrival "P1" (-5)

/-! ### Claims C1, C3, C5 -/

/-- C1, amended. As stated the claim is false: the event schema
(`MovementData`) accepts any integer quantity and `process_message` applies a
negative-quantity arrival, driving the stored quantity negative (see
`c1_ledger_negative_counterexample`). Amended by the minimal restriction the
counterexample forces: for every sequence of schema-accepted inbound events
whose arrival events carry non-negative quantities, applied via
`process_message` from the empty ledger, every stored quantity is ≥ 0 after
each application, and a departure that would drive a quantity negative is
rejected without mutating state. -/
theorem c1_ledger_nonneg_amended (msgs : List KafkaMessage)
    (hpos : ∀ m ∈ msgs, m.data.event = EventKind.arrival → 0 ≤ m.data.quantity)
    (m : KafkaMessage) (s : Store)
    (hdep : m.data.event = EventKind.departure)
    (hlow : (get_warehouse_state s m.data.warehouse_id m.data.product_id).quantity
      < m.data.quantity) :
    ledgerNonneg (applyAll msgs emptyStore) ∧ process_message m s = (false, s) :=
  ⟨applyAll_nonneg msgs emptyStore (fun r hr => absurd hr (List.not_mem_nil r)) hpos,
   process_message_reject m s hdep hlow⟩

/-- Witness for C1: the amended theorem applied to a concrete two-event
trace and a concrete over-large departure. -/
theorem c1_ledger_nonneg_witness :
    (∀ m ∈ [c1wA, c1wD], m.data.event = EventKind.arrival → 0 ≤ m.data.quantity) ∧
    c1wR.data.event = EventKind.departure ∧
    (get_warehouse_state c1wS c1wR.data.warehouse_id c1wR.data.product_id).quantity
      < c1wR.data.quantity ∧
    (ledgerNonneg (applyAll [c1wA, c1wD] emptyStore) ∧
      process_message c1wR c1wS = (false, c1wS)) :=
  ⟨by decide, by decide, by decide,
   c1_ledger_nonneg_amended [c1wA, c1wD] (by decide) c1wR c1wS (by decide) (by decide)⟩

/-- Counterexample for C1 as stated: the schema-accepted arrival `c1Neg`
(quantity −5), applied from the empty ledger, leaves a stored quantity of −5,
violating the invariant. -/
theorem c1_ledger_negative_counterexample :
    ¬ ledgerNonneg (applyAll [c1Neg] emptyStore) := by
  intro h
  exact absurd (h ⟨"W1:P1", "W1", "P1", -5⟩ (by decide)) (by decide)

/-- C3: a departure that finds the current ledger quantity strictly below the
event quantity returns `False` with the store (ledger rows and every
movement record, in particular the record for `event.movement_id`) exactly
as it was: `process_message` returns before issuing any write. -/
theorem c3_rejection_noop (m : KafkaMessage) (s : Store)
    (hdep : m.data.event = EventKind.departure)
    (hlow : (get_warehouse_state s m.data.warehouse_id m.data.product_id).quantity
      < m.data.quantity) :
    process_message m s = (false, s) :=
  process_message_reject m s hdep hlow

/-- Witness fixture for C3: ledger quantity 30 for (WH-1, PROD-1), no
movement rows. -/
def c3S : Store := ⟨[⟨"WH-1:PROD-1", "WH-1", "PROD-1", 30⟩], []⟩

/-- Witness fixture for C3: a departure of 50 against a stock of 30. -/
def c3M : KafkaMessage := mkMsg "MOV-3" "WH-1" 100 EventKind.departure "PROD-1" 50

/-- Witness for C3: the spec's own numbers (stock 30, departure 50). -/
theorem c3_rejection_noop_witness :
    c3M.data.event = EventKind.departure ∧
    (get_warehouse_state c3S c3M.data.warehouse_id c3M.data.product_id).quantity
      < c3M.data.quantity ∧
    process_message c3M c3S = (false, c3S) :=
  ⟨by decide, by decide, c3_rejection_noop c3M c3S (by decide) (by decide)⟩

/-- Failing-input fixture for C5: an arrival whose quantity is −3; the
pydantic schema (`MovementData.quantity : int`) accepts it. -/
def c5Neg : KafkaMessage := mkMsg "MOV-5" "WH-1" 7 EventKind.arrival "PROD-1" (-3)

/-- C5 evaluated at the failing input: contrary to the claim, the
non-positive-quantity event is not rejected as a validation error; neither
the schema nor `process_message` checks `quantity > 0`, so the event is
applied, mutating both stores and reporting success. -/
theorem c5_nonpositive_quantity_applied :
    process_message c5Neg emptyStore =
      (true, ⟨[⟨"WH-1:PROD-1", "WH-1", "PROD-1", -3⟩],
              [⟨"MOV-5", none, some "WH-1", "PROD-1", none, some 7, none,
                none, some (-3), none⟩]⟩) := by
  decide

/-! ### Claim C10: reads are pure -/

/-- C10: the read operations are SELECT-only (they are functions of the
store that return views, issuing no INSERT or UPDATE — compare
`get_warehouse_state`, `get_movement_info` and the `app/api/routes.py`
endpoints, whose only store access is `database.fetch_one`). In particular a
lookup of an unknown (warehouse_id, product_id) yields the quantity-0 view
without creating a stored row, and a lookup of an unknown movement_id yields
`None` (HTTP 404 on the route) without creating a row. -/
theorem c10_reads_pure (s : Store) (warehouse_id product_id movement_id : String)
    (hw : fetchWarehouseRow s.warehouse_states warehouse_id product_id = none)
    (hm : findMovementRow s.movements movement_id = none) :
    get_warehouse_state s warehouse_id product_id = ⟨warehouse_id, product_id, 0⟩ ∧
    routes_read_warehouse_state s warehouse_id product_id = ⟨warehouse_id, product_id, 0⟩ ∧
    get_movement_info s movement_id = none ∧
    routes_read_movement s movement_id = Except.error 404 := by
  have hws : get_warehouse_state s warehouse_id product_id = ⟨warehouse_id, product_id, 0⟩ := by
    simp only [get_warehouse_state, hw]
  have hmi : get_movement_info s movement_id = none := by
    simp only [get_movement_info, hm]
  exact ⟨hws, hws, hmi, by simp only [routes_read_movement, hmi]⟩

/-- Witness fixture for C10: a store holding unrelated rows only. -/
def c10S : Store :=
  ⟨[⟨"WH-2:PROD-2", "WH-2", "PROD-2", 7⟩],
   [⟨"MOV-X", some "WH-2", none, "PROD-2", some 3, none, none, some 7, none, none⟩]⟩

/-- Witness for C10 at a concrete store and unknown keys. -/
theorem c10_reads_pure_witness :
    fetchWarehouseRow c10S.warehouse_states "WH-1" "PROD-1" = none ∧
    findMovementRow c10S.movements "MOV-404" = none ∧
    (get_warehouse_state c10S "WH-1" "PROD-1" = ⟨"WH-1", "PROD-1", 0⟩ ∧
     routes_read_warehouse_state c10S "WH-1" "PROD-1" = ⟨"WH-1", "PROD-1", 0⟩ ∧
     get_movement_info c10S "MOV-404" = none ∧
     routes_read_movement c10S "MOV-404" = Except.error 404) :=
  ⟨by decide, by decide, c10_reads_pure c10S "WH-1" "PROD-1" "MOV-404" (by decide) (by decide)⟩

/-! ### Locating a movement row after an UPDATE or INSERT -/

/-- After an UPDATE that patches exactly the rows matching `movement_id`
(with a patch preserving the key), `find?` returns the patched version of
what it returned before. -/
theorem findMovementRow_map_patch (l : List MovementRow) (mid : String)
    (patch : MovementRow → MovementRow)
    (hid : ∀ r, (patch r).movement_id = r.movement_id) :
    findMovementRow (l.map (fun r => if r.movement_id == mid then patch r else r)) mid
      = Option.map (fun r => if r.movement_id == mid then patch r else r)
          (findMovementRow l mid) := by
  unfold findMovementRow
  apply find?_map_pres
  intro a
  by_cases hm : (a.movement_id == mid) = true
  · simp only [if_pos hm]
    show ((patch a).movement_id == mid) = (a.movement_id == mid)
    rw [hid a]
  · simp only [if_neg hm]

/-- After an INSERT of a row keyed by the previously missing `movement_id`,
`find?` returns exactly the inserted row. -/
theorem findMovementRow_append_fresh (l : List MovementRow) (mid : String)
    (nr : MovementRow) (hf : findMovementRow l mid = none)
    (hnr : (nr.movement_id == mid) = true) :
    findMovementRow (l ++ [nr]) mid = some nr := by
  unfold findMovementRow at hf ⊢
  rw [find?_append_of_none _ _ _ hf]
  simp [List.find?_cons, hnr]

/-- A found movement row matches the key it was selected by. -/
theorem findMovementRow_key (l : List MovementRow) (mid : String)
    (mv : MovementRow) (h : findMovementRow l mid = some mv) :
    (mv.movement_id == mid) = true := by
  have := List.find?_some (p := fun r : MovementRow => r.movement_id == mid) h
  exact this

/-! ### Claim C6: derived fields are recomputed, never stale -/

/-- C6: after a departure-side or arrival-side movement update succeeds,
whenever the stored row for the touched movement has both sides present, its
`time_difference_seconds` equals `arrival_time - departure_time` (negative
values permitted, not clamped) and its `quantity_difference` equals
`arrival_quantity - departure_quantity`: the update either recomputes both
derived fields from the currently stored sides, or leaves a row in which one
side is absent, making the both-sides premise vacuous — never a stale pair. -/
theorem c6_derived_fields (s s' : Store) (mid w p : String) (t q : Int)
    (r : MovementRow)
    (h : update_movement_departure s mid w p t q = Except.ok s' ∨
         update_movement_arrival s mid w p t q = Except.ok s')
    (hr : findMovementRow s'.movements mid = some r)
    (dt arrt dq aq : Int)
    (hdt : r.departure_time = some dt) (hat : r.arrival_time = some arrt)
    (hdq : r.departure_quantity = some dq) (haq : r.arrival_quantity = some aq) :
    r.time_difference_seconds = some (arrt - dt) ∧
    r.quantity_difference = some (aq - dq) := by
  rcases h with h | h
  · have hcore := update_movement_departure_ok s mid w p t q s' h
    cases hf : findMovementRow s.movements mid with
    | none =>
        simp only [movDepartureCore, hf] at hcore
        injection hcore with hcore
        rw [← hcore] at hr
        rw [findMovementRow_append_fresh _ _ _ hf (by simp)] at hr
        injection hr with hr
        rw [← hr] at hat
        simp at hat
    | some mv =>
        simp only [movDepartureCore, hf] at hcore
        cases hat0 : mv.arrival_time with
        | none =>
            simp only [hat0] at hcore
            injection hcore with hcore
            rw [← hcore] at hr
            rw [findMovementRow_map_patch s.movements mid
                  (fun a => { a with source_warehouse := some w,
                                     departure_time := some t,
                                     departure_quantity := some q })
                  (fun a => rfl), hf] at hr
            simp only [Option.map] at hr
            rw [if_pos (findMovementRow_key s.movements mid mv hf)] at hr
            injection hr with hr
            subst hr
            have hat2 : mv.arrival_time = some arrt := hat
            rw [hat0] at hat2
            cases hat2
        | some arrT =>
            cases haq0 : mv.arrival_quantity with
            | none =>
                simp only [hat0, haq0] at hcore
                cases hcore
            | some arrQ =>
                simp only [hat0, haq0] at hcore
                injection hcore with hcore
                rw [← hcore] at hr
                rw [findMovementRow_map_patch s.movements mid
                      (fun a => { a with source_warehouse := some w,
                                         departure_time := some t,
                                         departure_quantity := some q,
                                         time_difference_seconds := some (arrT - t),
                                         quantity_difference := some (arrQ - q) })
                      (fun a => rfl), hf] at hr
                simp only [Option.map] at hr
                rw [if_pos (findMovementRow_key s.movements mid mv hf)] at hr
                injection hr with hr
                subst hr
                have hdt2 : some t = some dt := hdt
                have hat2 : mv.arrival_time = some arrt := hat
                have hdq2 : some q = some dq := hdq
                have haq2 : mv.arrival_quantity = some aq := haq
                rw [hat0] at hat2
                rw [haq0] at haq2
                injection hdt2 with hdt2
                injection hat2 with hat2
                injection hdq2 with hdq2
                injection haq2 with haq2
                subst hdt2
                subst hat2
                subst hdq2
                subst haq2
                exact ⟨rfl, rfl⟩
  · have hcore := update_movement_arrival_ok s mid w p t q s' h
    cases hf : findMovementRow s.movements mid with
    | none =>
        simp only [movArrivalCore, hf] at hcore
        injection hcore with hcore
        rw [← hcore] at hr
        rw [findMovementRow_append_fresh _ _ _ hf (by simp)] at hr
        injection hr with hr
        rw [← hr] at hdt
        simp at hdt
    | some mv =>
        simp only [movArrivalCore, hf] at hcore
        cases hdt0 : mv.departure_time with
        | none =>
            simp only [hdt0] at hcore
            injection hcore with hcore
            rw [← hcore] at hr
            rw [findMovementRow_map_patch s.movements mid
                  (fun a => { a with destination_warehouse := some w,
                                     arrival_time := some t,
                                     arrival_quantity := some q })
                  (fun a => rfl), hf] at hr
            simp only [Option.map] at hr
            rw [if_pos (findMovementRow_key s.movements mid mv hf)] at hr
            injection hr with hr
            subst hr
            have hdt2 : mv.departure_time = some dt := hdt
            rw [hdt0] at hdt2
            cases hdt2
        | some depT =>
            cases hdq0 : mv.departure_quantity with
            | none =>
                simp only [hdt0, hdq0] at hcore
                cases hcore
            | some depQ =>
                simp only [hdt0, hdq0] at hcore
                injection hcore with hcore
                rw [← hcore] at hr
                rw [findMovementRow_map_patch s.movements mid
                      (fun a => { a with destination_warehouse := some w,
                                         arrival_time := some t,
                                         arrival_quantity := some q,
                                         time_difference_seconds := some (t - depT),
                                         quantity_difference := some (q - depQ) })
                      (fun a => rfl), hf] at hr
                simp only [Option.map] at hr
                rw [if_pos (findMovementRow_key s.movements mid mv hf)] at hr
                injection hr with hr
                subst hr
                have hdt2 : mv.departure_time = some dt := hdt
                have hat2 : some t = some arrt := hat
                have hdq2 : mv.departure_quantity = some dq := hdq
                have haq2 : some q = some aq := haq
                rw [hdt0] at hdt2
                rw [hdq0] at hdq2
                injection hdt2 with hdt2
                injection hat2 with hat2
                injection hdq2 with hdq2
                injection haq2 with haq2
                subst hdt2
                subst hat2
                subst hdq2
                subst haq2
                exact ⟨rfl, rfl⟩

/-- Witness fixture for C6: a store whose movement MOV-6 has only the
arrival side recorded (arrived at WH-2 at time 500 with quantity 40). -/
def c6S : Store :=
  ⟨[], [⟨"MOV-6", none, some "WH-2", "PROD-1", none, some 500, none, none,
         some 40, none⟩]⟩

/-- Witness fixture for C6: the store after the departure side (WH-1,
time 200, quantity 40) is merged into MOV-6. -/
def c6S2 : Store :=
  ⟨[], [⟨"MOV-6", some "WH-1", some "WH-2", "PROD-1", some 200, some 500,
         some 300, some 40, some 40, some 0⟩]⟩

/-- Witness fixture for C6: the reconciled row of MOV-6. -/
def c6R : MovementRow :=
  ⟨"MOV-6", some "WH-1", some "WH-2", "PROD-1", some 200, some 500,
   some 300, some 40, some 40, some 0⟩

/-- Witness for C6: merging the departure side into an arrival-only record
recomputes both derived fields. -/
theorem c6_derived_fields_witness :
    (update_movement_departure c6S "MOV-6" "WH-1" "PROD-1" 200 40 = Except.ok c6S2 ∨
     update_movement_arrival c6S "MOV-6" "WH-1" "PROD-1" 200 40 = Except.ok c6S2) ∧
    findMovementRow c6S2.movements "MOV-6" = some c6R ∧
    c6R.departure_time = some 200 ∧ c6R.arrival_time = some 500 ∧
    c6R.departure_quantity = some 40 ∧ c6R.arrival_quantity = some 40 ∧
    (c6R.time_difference_seconds = some (500 - 200) ∧
     c6R.quantity_difference = some (40 - 40)) :=
  ⟨Or.inl (by rfl), by decide, by decide, by decide, by decide, by decide,
   c6_derived_fields c6S c6S2 "MOV-6" "WH-1" "PROD-1" 200 40 c6R
     (Or.inl (by rfl)) (by decide) 200 500 40 40
     (by decide) (by decide) (by decide) (by decide)⟩

/-! ### Claims C7, C8: the wiring of the query surface and its cache -/

/-- Failing-input fixture for C7: arrival of 100 units of PROD-1 at WH-1. -/
def c7Msg : KafkaMessage := mkMsg "MOV-7" "WH-1" 1000 EventKind.arrival "PROD-1" 100

/-- C7 evaluated at the failing input (scenario A): from the empty database
and the empty in-process state, the engine applies arrival(WH-1, PROD-1,
qty=100) successfully, and the database-backed endpoint of
`app/api/routes.py` would return quantity 100 — but that router is never
mounted; the endpoint actually served by the app in `app/main.py` reads the
in-memory `warehouses` dictionary, which the engine never writes, and
returns quantity 0. -/
theorem c7_scenario_a_divergence :
    (process_message c7Msg emptyStore).1 = true ∧
    routes_read_warehouse_state (process_message c7Msg emptyStore).2 "WH-1" "PROD-1"
      = ⟨"WH-1", "PROD-1", 100⟩ ∧
    (main_read_warehouse_state emptyMainState "WH-1" "PROD-1").1
      = ⟨"WH-1", "PROD-1", 0⟩ :=
  ⟨by decide, by decide, by decide⟩

/-- Fixture for C8: database ledger holding 30 units of PROD-1 at WH-1. -/
def c8Db0 : Store := ⟨[⟨"WH-1:PROD-1", "WH-1", "PROD-1", 30⟩], []⟩

/-- Fixture for C8: in-process state of `app/main.py` whose `warehouses`
dictionary holds the same 30 units, caches cold. -/
def c8Main0 : MainState :=
  ⟨[("WH-1:PROD-1", ⟨"WH-1", "PROD-1", 30⟩)], [], [], []⟩

/-- Fixture for C8: the in-process state after one read has warmed the
lru_cache for the key WH-1:PROD-1. -/
def c8Main1 : MainState := (main_read_warehouse_state c8Main0 "WH-1" "PROD-1").2

/-- Fixture for C8: arrival of 70 further units of PROD-1 at WH-1. -/
def c8Msg : KafkaMessage := mkMsg "MOV-8" "WH-1" 50 EventKind.arrival "PROD-1" 70

/-- C8 evaluated at the failing input: the engine's apply succeeds and
brings the ledger to 100, but it performs no cache invalidation
(`invalidate_cache` has no callers; `process_message` never touches the
state of `app/main.py`), so the warmed cache entry for the touched ledger
key survives the apply unchanged and a read served from the cache afterwards
still returns the pre-write quantity 30. -/
theorem c8_cache_not_invalidated :
    (system_apply c8Msg (c8Db0, c8Main1)).1 = true ∧
    (system_apply c8Msg (c8Db0, c8Main1)).2.2 = c8Main1 ∧
    lruGet c8Main1.warehouseCache "WH-1:PROD-1" = some (some ⟨"WH-1", "PROD-1", 30⟩) ∧
    (get_warehouse_state (system_apply c8Msg (c8Db0, c8Main1)).2.1 "WH-1" "PROD-1").quantity = 100 ∧
    (main_read_warehouse_state (system_apply c8Msg (c8Db0, c8Main1)).2.2 "WH-1" "PROD-1").1.quantity = 30 :=
  ⟨by decide, by decide, by decide, by decide, by decide⟩

/-! ### Claim C9: persistence failures are not propagated -/

/-- Fixture for C9: a departure rejected for insufficient stock (an ordinary
per-message business rejection). -/
def c9Dep : KafkaMessage := mkMsg "MOV-9" "WH-9" 10 EventKind.departure "PROD-9" 50

/-- Fixture for C9: an ordinary arrival. -/
def c9Arr : KafkaMessage := mkMsg "MOV-9A" "WH-1" 20 EventKind.arrival "PROD-1" 5

/-- Counterexample for C9 as stated: with the persistence layer down for the
first message, `process_message` returns the ordinary `False` outcome
(caught by its own `except`), the consumer emits exactly the same log action
as for an `InsufficientStock` rejection, and its very next step is to
process the following message — no pause, no backoff, no retry of the
faulted message. -/
theorem c9_store_fault_counterexample :
    consume_run [(false, c9Arr), (true, c9Arr)] emptyStore
      = ([ConsumerLog.processedFailed, ConsumerLog.processedOk],
         (process_message c9Arr emptyStore).2) ∧
    consume_step (process_message_avail false c9Arr emptyStore).1
      = consume_step (process_message c9Dep emptyStore).1 :=
  ⟨by decide, by decide⟩

/-- C9, amended: a persistence-layer failure during apply is caught inside
`process_message` (source lines 45-47) and surfaced as the ordinary `False`
result with no store mutation; the consumer logs a warning — exactly as for
a business rejection — and immediately continues with the remaining
messages, without pausing, backing off, or re-attempting the faulted
message. -/
theorem c9_store_fault_as_rejection (m : KafkaMessage) (s : Store)
    (rest : List (Bool × KafkaMessage)) :
    process_message_avail false m s = (false, s) ∧
    consume_step (process_message_avail false m s).1 = ConsumerLog.processedFailed ∧
    consume_run ((false, m) :: rest) s
      = (ConsumerLog.processedFailed :: (consume_run rest s).1,
         (consume_run rest s).2) := by
  refine ⟨rfl, rfl, ?_⟩
  simp [consume_run, process_message_avail, process_message_store_down, consume_step]

/-! ### Idempotence machinery for re-applied events -/

/-- Patching matched rows twice with a key-preserving, idempotent patch is
the same as patching once. -/
theorem map_patch_patch {α : Type} (pred : α → Bool) (patch : α → α)
    (hpred : ∀ a, pred (patch a) = pred a)
    (hpp : ∀ a, patch (patch a) = patch a) (l : List α) :
    (l.map (fun r => if pred r then patch r else r)).map
        (fun r => if pred r then patch r else r)
      = l.map (fun r => if pred r then patch r else r) := by
  rw [List.map_map]
  have hfun : ((fun r => if pred r then patch r else r) ∘
      (fun r => if pred r then patch r else r))
      = (fun r : α => if pred r then patch r else r) := by
    funext a
    simp only [Function.comp]
    by_cases hp : pred a = true
    · rw [if_pos hp, if_pos (by rw [hpred a]; exact hp), hpp a]
    · rw [if_neg hp, if_neg hp]
  rw [hfun]

/-- Re-running a successful departure-side movement update on its own output
succeeds and changes nothing. -/
theorem movDepartureCore_idem (l : List MovementRow) (mid w p : String)
    (t q : Int) (l' : List MovementRow)
    (h : movDepartureCore l mid w p t q = Except.ok l') :
    movDepartureCore l' mid w p t q = Except.ok l' := by
  cases hf : findMovementRow l mid with
  | none =>
      simp only [movDepartureCore, hf] at h
      injection h with h
      subst h
      have hfr := findMovementRow_append_fresh l mid
        ⟨mid, some w, none, p, some t, none, none, some q, none, none⟩ hf (by simp)
      simp only [movDepartureCore, hfr]
      congr 1
      rw [List.map_append]
      have h1 : l.map (fun r =>
          if r.movement_id == mid then
            { r with source_warehouse := some w,
                     departure_time := some t,
                     departure_quantity := some q }
          else r) = l := by
        apply map_eq_self_of_mem
        intro a ha
        have hnot := List.find?_eq_none.mp hf a ha
        rw [if_neg hnot]
      rw [h1]
      simp
  | some mv =>
      have hkey := findMovementRow_key l mid mv hf
      cases hat0 : mv.arrival_time with
      | none =>
          simp only [movDepartureCore, hf, hat0] at h
          injection h with h
          subst h
          have hfr : findMovementRow (l.map (fun a =>
              if a.movement_id == mid then
                { a with source_warehouse := some w,
                         departure_time := some t,
                         departure_quantity := some q }
              else a)) mid
              = some { mv with source_warehouse := some w,
                               departure_time := some t,
                               departure_quantity := some q } := by
            rw [findMovementRow_map_patch l mid
                  (fun a => { a with source_warehouse := some w,
                                     departure_time := some t,
                                     departure_quantity := some q })
                  (fun a => rfl), hf]
            simp only [Option.map]
            rw [if_pos hkey]
          simp only [movDepartureCore, hfr, hat0]
          congr 1
          exact map_patch_patch (fun r : MovementRow => r.movement_id == mid)
            (fun a => { a with source_warehouse := some w,
                               departure_time := some t,
                               departure_quantity := some q })
            (fun a => rfl) (fun a => rfl) l
      | some arrT =>
          cases haq0 : mv.arrival_quantity with
          | none =>
              simp only [movDepartureCore, hf, hat0, haq0] at h
              cases h
          | some arrQ =>
              simp only [movDepartureCore, hf, hat0, haq0] at h
              injection h with h
              subst h
              have hfr : findMovementRow (l.map (fun a =>
                  if a.movement_id == mid then
                    { a with source_warehouse := some w,
                             departure_time := some t,
                             departure_quantity := some q,
                             time_difference_seconds := some (arrT - t),
                             quantity_difference := some (arrQ - q) }
                  else a)) mid
                  = some { mv with source_warehouse := some w,
                                   departure_time := some t,
                                   departure_quantity := some q,
                                   time_difference_seconds := some (arrT - t),
                                   quantity_difference := some (arrQ - q) } := by
                rw [findMovementRow_map_patch l mid
                      (fun a => { a with source_warehouse := some w,
                                         departure_time := some t,
                                         departure_quantity := some q,
                                         time_difference_seconds := some (arrT - t),
                                         quantity_difference := some (arrQ - q) })
                      (fun a => rfl), hf]
                simp only [Option.map]
                rw [if_pos hkey]
              simp only [movDepartureCore, hfr, hat0, haq0]
              congr 1
              exact map_patch_patch (fun r : MovementRow => r.movement_id == mid)
                (fun a => { a with source_warehouse := some w,
                                   departure_time := some t,
                                   departure_quantity := some q,
                                   time_difference_seconds := some (arrT - t),
                                   quantity_difference := some (arrQ - q) })
                (fun a => rfl) (fun a => rfl) l

/-- Re-running a successful arrival-side movement update on its own output
succeeds and changes nothing. -/
theorem movArrivalCore_idem (l : List MovementRow) (mid w p : String)
    (t q : Int) (l' : List MovementRow)
    (h : movArrivalCore l mid w p t q = Except.ok l') :
    movArrivalCore l' mid w p t q = Except.ok l' := by
  cases hf : findMovementRow l mid with
  | none =>
      simp only [movArrivalCore, hf] at h
      injection h with h
      subst h
      have hfr := findMovementRow_append_fresh l mid
        ⟨mid, none, some w, p, none, some t, none, none, some q, none⟩ hf (by simp)
      simp only [movArrivalCore, hfr]
      congr 1
      rw [List.map_append]
      have h1 : l.map (fun r =>
          if r.movement_id == mid then
            { r with destination_warehouse := some w,
                     arrival_time := some t,
                     arrival_quantity := some q }
          else r) = l := by
        apply map_eq_self_of_mem
        intro a ha
        have hnot := List.find?_eq_none.mp hf a ha
        rw [if_neg hnot]
      rw [h1]
      simp
  | some mv =>
      have hkey := findMovementRow_key l mid mv hf
      cases hdt0 : mv.departure_time with
      | none =>
          simp only [movArrivalCore, hf, hdt0] at h
          injection h with h
          subst h
          have hfr : findMovementRow (l.map (fun a =>
              if a.movement_id == mid then
                { a with destination_warehouse := some w,
                         arrival_time := some t,
                         arrival_quantity := some q }
              else a)) mid
              = some { mv with destination_warehouse := some w,
                               arrival_time := some t,
                               arrival_quantity := some q } := by
            rw [findMovementRow_map_patch l mid
                  (fun a => { a with destination_warehouse := some w,
                                     arrival_time := some t,
                                     arrival_quantity := some q })
                  (fun a => rfl), hf]
            simp only [Option.map]
            rw [if_pos hkey]
          simp only [movArrivalCore, hfr, hdt0]
          congr 1
          exact map_patch_patch (fun r : MovementRow => r.movement_id == mid)
            (fun a => { a with destination_warehouse := some w,
                               arrival_time := some t,
                               arrival_quantity := some q })
            (fun a => rfl) (fun a => rfl) l
      | some depT =>
          cases hdq0 : mv.departure_quantity with
          | none =>
              simp only [movArrivalCore, hf, hdt0, hdq0] at h
              cases h
          | some depQ =>
              simp only [movArrivalCore, hf, hdt0, hdq0] at h
              injection h with h
              subst h
              have hfr : findMovementRow (l.map (fun a =>
                  if a.movement_id == mid then
                    { a with destination_warehouse := some w,
                             arrival_time := some t,
                             arrival_quantity := some q,
                             time_difference_seconds := some (t - depT),
                             quantity_difference := some (q - depQ) }
                  else a)) mid
                  = some { mv with destination_warehouse := some w,
                                   arrival_time := some t,
                                   arrival_quantity := some q,
                                   time_difference_seconds := some (t - depT),
                                   quantity_difference := some (q - depQ) } := by
                rw [findMovementRow_map_patch l mid
                      (fun a => { a with destination_warehouse := some w,
                                         arrival_time := some t,
                                         arrival_quantity := some q,
                                         time_difference_seconds := some (t - depT),
                                         quantity_difference := some (q - depQ) })
                      (fun a => rfl), hf]
                simp only [Option.map]
                rw [if_pos hkey]
              simp only [movArrivalCore, hfr, hdt0, hdq0]
              congr 1
              exact map_patch_patch (fun r : MovementRow => r.movement_id == mid)
                (fun a => { a with destination_warehouse := some w,
                                   arrival_time := some t,
                                   arrival_quantity := some q,
                                   time_difference_seconds := some (t - depT),
                                   quantity_difference := some (q - depQ) })
                (fun a => rfl) (fun a => rfl) l

/-- After a successful ledger write for a key, a further ledger write for
the same key always succeeds (the row now exists, so the UPDATE branch is
taken). -/
theorem wsUpdateCore_ok_again (l : List WarehouseRow) (w p : String) (q : Int)
    (l' : List WarehouseRow) (h : wsUpdateCore l w p q = Except.ok l')
    (q2 : Int) : ∃ l2, wsUpdateCore l' w p q2 = Except.ok l2 := by
  cases hf : fetchWarehouseRow l w p with
  | some row =>
      simp only [wsUpdateCore, hf] at h
      injection h with h
      subst h
      have hpres : ∀ a : WarehouseRow,
          (((if a.id == w ++ ":" ++ p then { a with quantity := q } else a).warehouse_id == w) &&
           ((if a.id == w ++ ":" ++ p then { a with quantity := q } else a).product_id == p))
            = ((a.warehouse_id == w) && (a.product_id == p)) := by
        intro a
        by_cases hid : (a.id == w ++ ":" ++ p) = true
        · rw [if_pos hid]
        · rw [if_neg hid]
      have hfind : fetchWarehouseRow (l.map (fun r =>
          if r.id == w ++ ":" ++ p then { r with quantity := q } else r)) w p
          = some (if row.id == w ++ ":" ++ p then { row with quantity := q } else row) := by
        unfold fetchWarehouseRow at hf ⊢
        rw [find?_map_pres _ _ hpres l, hf]
        rfl
      exact ⟨_, by simp only [wsUpdateCore, hfind]; rfl⟩
  | none =>
      simp only [wsUpdateCore, hf] at h
      split at h
      · cases h
      · injection h with h
        subst h
        have hfind : fetchWarehouseRow (l ++ [⟨w ++ ":" ++ p, w, p, q⟩]) w p
            = some ⟨w ++ ":" ++ p, w, p, q⟩ := by
          unfold fetchWarehouseRow at hf ⊢
          rw [find?_append_of_none _ _ _ hf]
          simp
        exact ⟨_, by simp only [wsUpdateCore, hfind]; rfl⟩

/-- The error form of a departure-side movement write comes from its core. -/
theorem update_movement_departure_err (s : Store) (mid w p : String)
    (t q : Int) (e : String)
    (h : update_movement_departure s mid w p t q = Except.error e) :
    movDepartureCore s.movements mid w p t q = Except.error e := by
  unfold update_movement_departure at h
  cases hc : movDepartureCore s.movements mid w p t q with
  | error e2 => rw [hc] at h; injection h with h; rw [h]
  | ok l => rw [hc] at h; cases h

/-- The error form of an arrival-side movement write comes from its core. -/
theorem update_movement_arrival_err (s : Store) (mid w p : String)
    (t q : Int) (e : String)
    (h : update_movement_arrival s mid w p t q = Except.error e) :
    movArrivalCore s.movements mid w p t q = Except.error e := by
  unfold update_movement_arrival at h
  cases hc : movArrivalCore s.movements mid w p t q with
  | error e2 => rw [hc] at h; injection h with h; rw [h]
  | ok l => rw [hc] at h; cases h

/-- A successful ledger-core write determines the store-level result. -/
theorem update_warehouse_state_build (s : Store) (w p : String) (q : Int)
    (l : List WarehouseRow)
    (hc : wsUpdateCore s.warehouse_states w p q = Except.ok l) :
    update_warehouse_state s w p q = Except.ok { s with warehouse_states := l } := by
  unfold update_warehouse_state
  rw [hc]

/-- A successful departure-core write determines the store-level result. -/
theorem update_movement_departure_build (s : Store) (mid w p : String)
    (t q : Int) (l : List MovementRow)
    (hc : movDepartureCore s.movements mid w p t q = Except.ok l) :
    update_movement_departure s mid w p t q = Except.ok { s with movements := l } := by
  unfold update_movement_departure
  rw [hc]

/-- A successful arrival-core write determines the store-level result. -/
theorem update_movement_arrival_build (s : Store) (mid w p : String)
    (t q : Int) (l : List MovementRow)
    (hc : movArrivalCore s.movements mid w p t q = Except.ok l) :
    update_movement_arrival s mid w p t q = Except.ok { s with movements := l } := by
  unfold update_movement_arrival
  rw [hc]

/-! ### Claim C2: idempotence of re-delivery -/

/-- C2, amended. As stated the claim is false for the ledger quantity: an
accepted re-application applies the quantity delta a second time (see
`c2_ledger_not_idem_counterexample`). What does hold, for both event kinds
and any store: re-applying the same event with identical fields leaves the
entire movements table exactly as after the first application — the
movement record is overwritten with identical values (including the derived
fields, recomputed from the unchanged opposite side), an insufficient-stock
second departure is rejected without any write, and a store error replays
identically. -/
theorem c2_movement_record_idem (message : KafkaMessage) (s : Store) :
    (process_message message (process_message message s).2).2.movements
      = (process_message message s).2.movements := by
  cases hev : message.data.event with
  | departure =>
      by_cases hlt : (get_warehouse_state s message.data.warehouse_id
          message.data.product_id).quantity < message.data.quantity
      · have h1 : process_message message s = (false, s) :=
          process_message_reject message s hev hlt
        rw [h1]
        show (process_message message s).2.movements = s.movements
        rw [h1]
      · cases hu : update_warehouse_state s message.data.warehouse_id
            message.data.product_id
            ((get_warehouse_state s message.data.warehouse_id
              message.data.product_id).quantity - message.data.quantity) with
        | error e =>
            have h1 : process_message message s = (false, s) := by
              simp only [process_message, hev, if_neg hlt, hu]
            rw [h1]
            show (process_message message s).2.movements = s.movements
            rw [h1]
        | ok s1 =>
            have hwsc1 : wsUpdateCore s.warehouse_states message.data.warehouse_id
                message.data.product_id
                ((get_warehouse_state s message.data.warehouse_id
                  message.data.product_id).quantity - message.data.quantity)
                = Except.ok s1.warehouse_states :=
              update_warehouse_state_ok s _ _ _ s1 hu
            cases hd : update_movement_departure s1 message.data.movement_id
                message.data.warehouse_id message.data.product_id
                message.data.timestamp message.data.quantity with
            | error e =>
                have h1 : process_message message s = (false, s1) := by
                  simp only [process_message, hev, if_neg hlt, hu, hd]
                have hcerr : movDepartureCore s1.movements message.data.movement_id
                    message.data.warehouse_id message.data.product_id
                    message.data.timestamp message.data.quantity = Except.error e :=
                  update_movement_departure_err s1 _ _ _ _ _ e hd
                rw [h1]
                show (process_message message s1).2.movements = s1.movements
                by_cases hlt2 : (get_warehouse_state s1 message.data.warehouse_id
                    message.data.product_id).quantity < message.data.quantity
                · rw [process_message_reject message s1 hev hlt2]
                · obtain ⟨l2, hl2⟩ := wsUpdateCore_ok_again s.warehouse_states
                    message.data.warehouse_id message.data.product_id _
                    s1.warehouse_states hwsc1
                    ((get_warehouse_state s1 message.data.warehouse_id
                      message.data.product_id).quantity - message.data.quantity)
                  have hu2 := update_warehouse_state_build s1
                    message.data.warehouse_id message.data.product_id _ l2 hl2
                  have hd2 : update_movement_departure
                      { s1 with warehouse_states := l2 }
                      message.data.movement_id message.data.warehouse_id
                      message.data.product_id message.data.timestamp
                      message.data.quantity = Except.error e := by
                    unfold update_movement_departure
                    rw [show ({ s1 with warehouse_states := l2 } : Store).movements
                          = s1.movements from rfl, hcerr]
                  simp only [process_message, hev, if_neg hlt2, hu2, hd2]
            | ok s2 =>
                have h1 : process_message message s = (true, s2) := by
                  simp only [process_message, hev, if_neg hlt, hu, hd]
                have hcok : movDepartureCore s1.movements message.data.movement_id
                    message.data.warehouse_id message.data.product_id
                    message.data.timestamp message.data.quantity
                    = Except.ok s2.movements :=
                  update_movement_departure_ok s1 _ _ _ _ _ s2 hd
                have hws2 : s2.warehouse_states = s1.warehouse_states :=
                  update_movement_departure_ws s1 _ _ _ _ _ s2 hd
                have hidem := movDepartureCore_idem s1.movements
                  message.data.movement_id message.data.warehouse_id
                  message.data.product_id message.data.timestamp
                  message.data.quantity s2.movements hcok
                rw [h1]
                show (process_message message s2).2.movements = s2.movements
                by_cases hlt2 : (get_warehouse_state s2 message.data.warehouse_id
                    message.data.product_id).quantity < message.data.quantity
                · rw [process_message_reject message s2 hev hlt2]
                · obtain ⟨l2, hl2⟩ := wsUpdateCore_ok_again s.warehouse_states
                    message.data.warehouse_id message.data.product_id _
                    s1.warehouse_states hwsc1
                    ((get_warehouse_state s2 message.data.warehouse_id
                      message.data.product_id).quantity - message.data.quantity)
                  have hl2' : wsUpdateCore s2.warehouse_states
                      message.data.warehouse_id message.data.product_id
                      ((get_warehouse_state s2 message.data.warehouse_id
                        message.data.product_id).quantity - message.data.quantity)
                      = Except.ok l2 := by
                    rw [hws2]
                    exact hl2
                  have hu2 := update_warehouse_state_build s2
                    message.data.warehouse_id message.data.product_id _ l2 hl2'
                  have hd2 := update_movement_departure_build
                    { s2 with warehouse_states := l2 }
                    message.data.movement_id message.data.warehouse_id
                    message.data.product_id message.data.timestamp
                    message.data.quantity s2.movements hidem
                  simp only [process_message, hev, if_neg hlt2, hu2, hd2]
  | arrival =>
      cases hu : update_warehouse_state s message.data.warehouse_id
          message.data.product_id
          ((get_warehouse_state s message.data.warehouse_id
            message.data.product_id).quantity + message.data.quantity) with
      | error e =>
          have h1 : process_message message s = (false, s) := by
            simp only [process_message, hev, hu]
          rw [h1]
          show (process_message message s).2.movements = s.movements
          rw [h1]
      | ok s1 =>
          have hwsc1 : wsUpdateCore s.warehouse_states message.data.warehouse_id
              message.data.product_id
              ((get_warehouse_state s message.data.warehouse_id
                message.data.product_id).quantity + message.data.quantity)
              = Except.ok s1.warehouse_states :=
            update_warehouse_state_ok s _ _ _ s1 hu
          cases ha : update_movement_arrival s1 message.data.movement_id
              message.data.warehouse_id message.data.product_id
              message.data.timestamp message.data.quantity with
          | error e =>
              have h1 : process_message message s = (false, s1) := by
                simp only [process_message, hev, hu, ha]
              have hcerr : movArrivalCore s1.movements message.data.movement_id
                  message.data.warehouse_id message.data.product_id
                  message.data.timestamp message.data.quantity = Except.error e :=
                update_movement_arrival_err s1 _ _ _ _ _ e ha
              rw [h1]
              show (process_message message s1).2.movements = s1.movements
              obtain ⟨l2, hl2⟩ := wsUpdateCore_ok_again s.warehouse_states
                message.data.warehouse_id message.data.product_id _
                s1.warehouse_states hwsc1
                ((get_warehouse_state s1 message.data.warehouse_id
                  message.data.product_id).quantity + message.data.quantity)
              have hu2 := update_warehouse_state_build s1
                message.data.warehouse_id message.data.product_id _ l2 hl2
              have ha2 : update_movement_arrival { s1 with warehouse_states := l2 }
                  message.data.movement_id message.data.warehouse_id
                  message.data.product_id message.data.timestamp
                  message.data.quantity = Except.error e := by
                unfold update_movement_arrival
                rw [show ({ s1 with warehouse_states := l2 } : Store).movements
                      = s1.movements from rfl, hcerr]
              simp only [process_message, hev, hu2, ha2]
          | ok s2 =>
              have h1 : process_message message s = (true, s2) := by
                simp only [process_message, hev, hu, ha]
              have hcok : movArrivalCore s1.movements message.data.movement_id
                  message.data.warehouse_id message.data.product_id
                  message.data.timestamp message.data.quantity
                  = Except.ok s2.movements :=
                update_movement_arrival_ok s1 _ _ _ _ _ s2 ha
              have hws2 : s2.warehouse_states = s1.warehouse_states :=
                update_movement_arrival_ws s1 _ _ _ _ _ s2 ha
              have hidem := movArrivalCore_idem s1.movements
                message.data.movement_id message.data.warehouse_id
                message.data.product_id message.data.timestamp
                message.data.quantity s2.movements hcok
              rw [h1]
              show (process_message message s2).2.movements = s2.movements
              obtain ⟨l2, hl2⟩ := wsUpdateCore_ok_again s.warehouse_states
                message.data.warehouse_id message.data.product_id _
                s1.warehouse_states hwsc1
                ((get_warehouse_state s2 message.data.warehouse_id
                  message.data.product_id).quantity + message.data.quantity)
              have hl2' : wsUpdateCore s2.warehouse_states
                  message.data.warehouse_id message.data.product_id
                  ((get_warehouse_state s2 message.data.warehouse_id
                    message.data.product_id).quantity + message.data.quantity)
                  = Except.ok l2 := by
                rw [hws2]
                exact hl2
              have hu2 := update_warehouse_state_build s2
                message.data.warehouse_id message.data.product_id _ l2 hl2'
              have ha2 := update_movement_arrival_build
                { s2 with warehouse_states := l2 }
                message.data.movement_id message.data.warehouse_id
                message.data.product_id message.data.timestamp
                message.data.quantity s2.movements hidem
              simp only [process_message, hev, hu2, ha2]

/-- Counterexample fixture for C2: an arrival of 100 units. -/
def c2Arr : KafkaMessage := mkMsg "MOV-2" "WH-1" 10 EventKind.arrival "PROD-1" 100

/-- Counterexample for C2 as stated: applying the same arrival twice yields
ledger quantity 200, not the 100 of a single application — the ledger part
of the idempotence claim fails (the movement record is nevertheless
identical, per the amended theorem). -/
theorem c2_ledger_not_idem_counterexample :
    (get_warehouse_state (process_message c2Arr emptyStore).2 "WH-1" "PROD-1").quantity = 100 ∧
    (get_warehouse_state
      (process_message c2Arr (process_message c2Arr emptyStore).2).2
      "WH-1" "PROD-1").quantity = 200 ∧
    (200 : Int) ≠ 100 :=
  ⟨by decide, by decide, by decide⟩

/-! ### Inversion of a successful apply -/

/-- A departure reported as successful ran its movement core on the
incoming movements table and produced the final one. -/
theorem pm_true_dep (m : KafkaMessage) (s : Store)
    (hev : m.data.event = EventKind.departure)
    (h : (process_message m s).1 = true) :
    movDepartureCore s.movements m.data.movement_id m.data.warehouse_id
      m.data.product_id m.data.timestamp m.data.quantity
      = Except.ok (process_message m s).2.movements := by
  by_cases hlt : (get_warehouse_state s m.data.warehouse_id
      m.data.product_id).quantity < m.data.quantity
  · rw [process_message_reject m s hev hlt] at h
    simp at h
  · cases hu : update_warehouse_state s m.data.warehouse_id m.data.product_id
        ((get_warehouse_state s m.data.warehouse_id m.data.product_id).quantity
          - m.data.quantity) with
    | error e =>
        have hp : process_message m s = (false, s) := by
          simp only [process_message, hev, if_neg hlt, hu]
        rw [hp] at h
        simp at h
    | ok s1 =>
        cases hd : update_movement_departure s1 m.data.movement_id
            m.data.warehouse_id m.data.product_id m.data.timestamp
            m.data.quantity with
        | error e =>
            have hp : process_message m s = (false, s1) := by
              simp only [process_message, hev, if_neg hlt, hu, hd]
            rw [hp] at h
            simp at h
        | ok s2 =>
            have hp : process_message m s = (true, s2) := by
              simp only [process_message, hev, if_neg hlt, hu, hd]
            rw [hp]
            have hmv1 : s1.movements = s.movements :=
              update_warehouse_state_movements s _ _ _ s1 hu
            have hc := update_movement_departure_ok s1 _ _ _ _ _ s2 hd
            rw [hmv1] at hc
            exact hc

/-- An arrival reported as successful ran its movement core on the incoming
movements table and produced the final one. -/
theorem pm_true_arr (m : KafkaMessage) (s : Store)
    (hev : m.data.event = EventKind.arrival)
    (h : (process_message m s).1 = true) :
    movArrivalCore s.movements m.data.movement_id m.data.warehouse_id
      m.data.product_id m.data.timestamp m.data.quantity
      = Except.ok (process_message m s).2.movements := by
  cases hu : update_warehouse_state s m.data.warehouse_id m.data.product_id
      ((get_warehouse_state s m.data.warehouse_id m.data.product_id).quantity
        + m.data.quantity) with
  | error e =>
      have hp : process_message m s = (false, s) := by
        simp only [process_message, hev, hu]
      rw [hp] at h
      simp at h
  | ok s1 =>
      cases ha : update_movement_arrival s1 m.data.movement_id
          m.data.warehouse_id m.data.product_id m.data.timestamp
          m.data.quantity with
      | error e =>
          have hp : process_message m s = (false, s1) := by
            simp only [process_message, hev, hu, ha]
          rw [hp] at h
          simp at h
      | ok s2 =>
          have hp : process_message m s = (true, s2) := by
            simp only [process_message, hev, hu, ha]
          rw [hp]
          have hmv1 : s1.movements = s.movements :=
            update_warehouse_state_movements s _ _ _ s1 hu
          have hc := update_movement_arrival_ok s1 _ _ _ _ _ s2 ha
          rw [hmv1] at hc
          exact hc

/-! ### Order independence of reconciliation -/

/-- Departure then arrival on a movement with no prior record yields the
fully reconciled row. -/
theorem depArr_fresh (l : List MovementRow) (mid wd wa p : String)
    (t1 t2 q : Int) (l1 l2 : List MovementRow)
    (hf : findMovementRow l mid = none)
    (hd : movDepartureCore l mid wd p t1 q = Except.ok l1)
    (ha : movArrivalCore l1 mid wa p t2 q = Except.ok l2) :
    findMovementRow l2 mid = some ⟨mid, some wd, some wa, p, some t1, some t2,
      some (t2 - t1), some q, some q, some (q - q)⟩ := by
  simp only [movDepartureCore, hf] at hd
  injection hd with hd
  subst hd
  have hf1 := findMovementRow_append_fresh l mid
    ⟨mid, some wd, none, p, some t1, none, none, some q, none, none⟩ hf (by simp)
  simp only [movArrivalCore, hf1] at ha
  injection ha with ha
  subst ha
  rw [findMovementRow_map_patch _ mid
        (fun a => { a with destination_warehouse := some wa,
                           arrival_time := some t2,
                           arrival_quantity := some q,
                           time_difference_seconds := some (t2 - t1),
                           quantity_difference := some (q - q) })
        (fun a => rfl), hf1]
  simp only [Option.map]
  rw [if_pos (by simp)]

/-- Arrival then departure on a movement with no prior record yields the
same fully reconciled row. -/
theorem arrDep_fresh (l : List MovementRow) (mid wd wa p : String)
    (t1 t2 q : Int) (m1 m2 : List MovementRow)
    (hf : findMovementRow l mid = none)
    (ha : movArrivalCore l mid wa p t2 q = Except.ok m1)
    (hd : movDepartureCore m1 mid wd p t1 q = Except.ok m2) :
    findMovementRow m2 mid = some ⟨mid, some wd, some wa, p, some t1, some t2,
      some (t2 - t1), some q, some q, some (q - q)⟩ := by
  simp only [movArrivalCore, hf] at ha
  injection ha with ha
  subst ha
  have hf1 := findMovementRow_append_fresh l mid
    ⟨mid, none, some wa, p, none, some t2, none, none, some q, none⟩ hf (by simp)
  simp only [movDepartureCore, hf1] at hd
  injection hd with hd
  subst hd
  rw [findMovementRow_map_patch _ mid
        (fun a => { a with source_warehouse := some wd,
                           departure_time := some t1,
                           departure_quantity := some q,
                           time_difference_seconds := some (t2 - t1),
                           quantity_difference := some (q - q) })
        (fun a => rfl), hf1]
  simp only [Option.map]
  rw [if_pos (by simp)]

/-- Departure then arrival on a movement with an existing record overwrites
both sides and the derived fields, keeping only the key and product. -/
theorem depArr_existing (l : List MovementRow) (mid wd wa p : String)
    (t1 t2 q : Int) (mv : MovementRow) (l1 l2 : List MovementRow)
    (hf : findMovementRow l mid = some mv)
    (hd : movDepartureCore l mid wd p t1 q = Except.ok l1)
    (ha : movArrivalCore l1 mid wa p t2 q = Except.ok l2) :
    findMovementRow l2 mid = some { mv with
      source_warehouse := some wd, destination_warehouse := some wa,
      departure_time := some t1, arrival_time := some t2,
      time_difference_seconds := some (t2 - t1),
      departure_quantity := some q, arrival_quantity := some q,
      quantity_difference := some (q - q) } := by
  have hkey := findMovementRow_key l mid mv hf
  cases hat0 : mv.arrival_time with
  | none =>
      simp only [movDepartureCore, hf, hat0] at hd
      injection hd with hd
      subst hd
      have hf1 : findMovementRow (l.map (fun a =>
          if a.movement_id == mid then
            { a with source_warehouse := some wd,
                     departure_time := some t1,
                     departure_quantity := some q }
          else a)) mid
          = some { mv with source_warehouse := some wd,
                           departure_time := some t1,
                           departure_quantity := some q } := by
        rw [findMovementRow_map_patch l mid
              (fun a => { a with source_warehouse := some wd,
                                 departure_time := some t1,
                                 departure_quantity := some q })
              (fun a => rfl), hf]
        simp only [Option.map]
        rw [if_pos hkey]
      simp only [movArrivalCore, hf1] at ha
      injection ha with ha
      subst ha
      rw [findMovementRow_map_patch _ mid
            (fun a => { a with destination_warehouse := some wa,
                               arrival_time := some t2,
                               arrival_quantity := some q,
                               time_difference_seconds := some (t2 - t1),
                               quantity_difference := some (q - q) })
            (fun a => rfl), hf1]
      simp only [Option.map]
      rw [if_pos hkey]
  | some at0 =>
      cases haq0 : mv.arrival_quantity with
      | none =>
          simp only [movDepartureCore, hf, hat0, haq0] at hd
          cases hd
      | some aq0 =>
          simp only [movDepartureCore, hf, hat0, haq0] at hd
          injection hd with hd
          subst hd
          have hf1 : findMovementRow (l.map (fun a =>
              if a.movement_id == mid then
                { a with source_warehouse := some wd,
                         departure_time := some t1,
                         departure_quantity := some q,
                         time_difference_seconds := some (at0 - t1),
                         quantity_difference := some (aq0 - q) }
              else a)) mid
              = some { mv with source_warehouse := some wd,
                               departure_time := some t1,
                               departure_quantity := some q,
                               time_difference_seconds := some (at0 - t1),
                               quantity_difference := some (aq0 - q) } := by
            rw [findMovementRow_map_patch l mid
                  (fun a => { a with source_warehouse := some wd,
                                     departure_time := some t1,
                                     departure_quantity := some q,
                                     time_difference_seconds := some (at0 - t1),
                                     quantity_difference := some (aq0 - q) })
                  (fun a => rfl), hf]
            simp only [Option.map]
            rw [if_pos hkey]
          simp only [movArrivalCore, hf1] at ha
          injection ha with ha
          subst ha
          rw [findMovementRow_map_patch _ mid
                (fun a => { a with destination_warehouse := some wa,
                                   arrival_time := some t2,
                                   arrival_quantity := some q,
                                   time_difference_seconds := some (t2 - t1),
                                   quantity_difference := some (q - q) })
                (fun a => rfl), hf1]
          simp only [Option.map]
          rw [if_pos hkey]

/-- Arrival then departure on a movement with an existing record yields the
same final row as the other order. -/
theorem arrDep_existing (l : List MovementRow) (mid wd wa p : String)
    (t1 t2 q : Int) (mv : MovementRow) (m1 m2 : List MovementRow)
    (hf : findMovementRow l mid = some mv)
    (ha : movArrivalCore l mid wa p t2 q = Except.ok m1)
    (hd : movDepartureCore m1 mid wd p t1 q = Except.ok m2) :
    findMovementRow m2 mid = some { mv with
      source_warehouse := some wd, destination_warehouse := some wa,
      departure_time := some t1, arrival_time := some t2,
      time_difference_seconds := some (t2 - t1),
      departure_quantity := some q, arrival_quantity := some q,
      quantity_difference := some (q - q) } := by
  have hkey := findMovementRow_key l mid mv hf
  cases hdt0 : mv.departure_time with
  | none =>
      simp only [movArrivalCore, hf, hdt0] at ha
      injection ha with ha
      subst ha
      have hf1 : findMovementRow (l.map (fun a =>
          if a.movement_id == mid then
            { a with destination_warehouse := some wa,
                     arrival_time := some t2,
                     arrival_quantity := some q }
          else a)) mid
          = some { mv with destination_warehouse := some wa,
                           arrival_time := some t2,
                           arrival_quantity := some q } := by
        rw [findMovementRow_map_patch l mid
              (fun a => { a with destination_warehouse := some wa,
                                 arrival_time := some t2,
                                 arrival_quantity := some q })
              (fun a => rfl), hf]
        simp only [Option.map]
        rw [if_pos hkey]
      simp only [movDepartureCore, hf1] at hd
      injection hd with hd
      subst hd
      rw [findMovementRow_map_patch _ mid
            (fun a => { a with source_warehouse := some wd,
                               departure_time := some t1,
                               departure_quantity := some q,
                               time_difference_seconds := some (t2 - t1),
                               quantity_difference := some (q - q) })
            (fun a => rfl), hf1]
      simp only [Option.map]
      rw [if_pos hkey]
  | some dt0 =>
      cases hdq0 : mv.departure_quantity with
      | none =>
          simp only [movArrivalCore, hf, hdt0, hdq0] at ha
          cases ha
      | some dq0 =>
          simp only [movArrivalCore, hf, hdt0, hdq0] at ha
          injection ha with ha
          subst ha
          have hf1 : findMovementRow (l.map (fun a =>
              if a.movement_id == mid then
                { a with destination_warehouse := some wa,
                         arrival_time := some t2,
                         arrival_quantity := some q,
                         time_difference_seconds := some (t2 - dt0),
                         quantity_difference := some (q - dq0) }
              else a)) mid
              = some { mv with destination_warehouse := some wa,
                               arrival_time := some t2,
                               arrival_quantity := some q,
                               time_difference_seconds := some (t2 - dt0),
                               quantity_difference := some (q - dq0) } := by
            rw [findMovementRow_map_patch l mid
                  (fun a => { a with destination_warehouse := some wa,
                                     arrival_time := some t2,
                                     arrival_quantity := some q,
                                     time_difference_seconds := some (t2 - dt0),
                                     quantity_difference := some (q - dq0) })
                  (fun a => rfl), hf]
            simp only [Option.map]
            rw [if_pos hkey]
          simp only [movDepartureCore, hf1] at hd
          injection hd with hd
          subst hd
          rw [findMovementRow_map_patch _ mid
                (fun a => { a with source_warehouse := some wd,
                                   departure_time := some t1,
                                   departure_quantity := some q,
                                   time_difference_seconds := some (t2 - t1),
                                   quantity_difference := some (q - q) })
                (fun a => rfl), hf1]
          simp only [Option.map]
          rw [if_pos hkey]

/-! ### Claim C4 -/

/-- C4: applying departure(M, t1, qty=q) then arrival(M, t2, qty=q) — both
halves of one movement, equal quantities, same product — yields the same
final Movement record as the reverse order, with
`time_difference_seconds = t2 - t1` (seconds), `quantity_difference = 0`,
and both warehouses set, provided every application succeeds (in particular
the departure is not rejected in either order). -/
theorem c4_order_independence (dep arr : KafkaMessage) (s : Store)
    (mid wd wa p : String) (t1 t2 q : Int)
    (hdep : dep.data = ⟨mid, wd, t1, EventKind.departure, p, q⟩)
    (harr : arr.data = ⟨mid, wa, t2, EventKind.arrival, p, q⟩)
    (h1 : (process_message dep s).1 = true)
    (h2 : (process_message arr (process_message dep s).2).1 = true)
    (h3 : (process_message arr s).1 = true)
    (h4 : (process_message dep (process_message arr s).2).1 = true) :
    findMovementRow (process_message arr (process_message dep s).2).2.movements mid
      = findMovementRow (process_message dep (process_message arr s).2).2.movements mid ∧
    (findMovementRow (process_message arr (process_message dep s).2).2.movements mid).map
        MovementRow.time_difference_seconds = some (some (t2 - t1)) ∧
    (findMovementRow (process_message arr (process_message dep s).2).2.movements mid).map
        MovementRow.quantity_difference = some (some 0) ∧
    (findMovementRow (process_message arr (process_message dep s).2).2.movements mid).map
        MovementRow.source_warehouse = some (some wd) ∧
    (findMovementRow (process_message arr (process_message dep s).2).2.movements mid).map
        MovementRow.destination_warehouse = some (some wa) := by
  have hd1 := pm_true_dep dep s (by rw [hdep]) h1
  have ha1 := pm_true_arr arr (process_message dep s).2 (by rw [harr]) h2
  have ha2 := pm_true_arr arr s (by rw [harr]) h3
  have hd2 := pm_true_dep dep (process_message arr s).2 (by rw [hdep]) h4
  simp only [hdep] at hd1 hd2
  simp only [harr] at ha1 ha2
  cases hf : findMovementRow s.movements mid with
  | none =>
      have e1 := depArr_fresh s.movements mid wd wa p t1 t2 q _ _ hf hd1 ha1
      have e2 := arrDep_fresh s.movements mid wd wa p t1 t2 q _ _ hf ha2 hd2
      rw [e1, e2]
      refine ⟨rfl, rfl, ?_, rfl, rfl⟩
      simp
  | some mv =>
      have e1 := depArr_existing s.movements mid wd wa p t1 t2 q mv _ _ hf hd1 ha1
      have e2 := arrDep_existing s.movements mid wd wa p t1 t2 q mv _ _ hf ha2 hd2
      rw [e1, e2]
      refine ⟨rfl, rfl, ?_, rfl, rfl⟩
      simp

/-- Witness fixture for C4: ledger with 100 units of PROD-1 at WH-1. -/
def c4S : Store := ⟨[⟨"WH-1:PROD-1", "WH-1", "PROD-1", 100⟩], []⟩

/-- Witness fixture for C4: departure of 50 from WH-1 at t=36000. -/
def c4Dep : KafkaMessage := mkMsg "MOV-4" "WH-1" 36000 EventKind.departure "PROD-1" 50

/-- Witness fixture for C4: arrival of 50 at WH-2 at t=43200. -/
def c4Arr : KafkaMessage := mkMsg "MOV-4" "WH-2" 43200 EventKind.arrival "PROD-1" 50

/-- Witness for C4 at the spec's scenario-B numbers (time difference 7200,
quantity difference 0), with every hypothesis discharged concretely. -/
theorem c4_order_independence_witness :
    c4Dep.data = ⟨"MOV-4", "WH-1", 36000, EventKind.departure, "PROD-1", 50⟩ ∧
    c4Arr.data = ⟨"MOV-4", "WH-2", 43200, EventKind.arrival, "PROD-1", 50⟩ ∧
    (process_message c4Dep c4S).1 = true ∧
    (process_message c4Arr (process_message c4Dep c4S).2).1 = true ∧
    (process_message c4Arr c4S).1 = true ∧
    (process_message c4Dep (process_message c4Arr c4S).2).1 = true ∧
    (findMovementRow (process_message c4Arr (process_message c4Dep c4S).2).2.movements "MOV-4"
      = findMovementRow (process_message c4Dep (process_message c4Arr c4S).2).2.movements "MOV-4" ∧
    (findMovementRow (process_message c4Arr (process_message c4Dep c4S).2).2.movements "MOV-4").map
        MovementRow.time_difference_seconds = some (some (43200 - 36000)) ∧
    (findMovementRow (process_message c4Arr (process_message c4Dep c4S).2).2.movements "MOV-4").map
        MovementRow.quantity_difference = some (some 0) ∧
    (findMovementRow (process_message c4Arr (process_message c4Dep c4S).2).2.movements "MOV-4").map
        MovementRow.source_warehouse = some (some "WH-1") ∧
    (findMovementRow (process_message c4Arr (process_message c4Dep c4S).2).2.movements "MOV-4").map
        MovementRow.destination_warehouse = some (some "WH-2")) :=
  ⟨by decide, by decide, by decide, by decide, by decide, by decide,
   c4_order_independence c4Dep c4Arr c4S "MOV-4" "WH-1" "WH-2" "PROD-1"
     36000 43200 50 (by decide) (by decide) (by decide) (by decide)
     (by decide) (by decide)⟩
